import Mathlib

/-!
Shallow embedding of the Misaligned_Board_App core
(UI/src/utils/relay_controller.py, UI/src/core/detection_engine.py,
UI/src/core/video_thread.py, UI/main.py) and proofs about it.

External I/O (serial writes, port opening, cv2 calls, file saves) is
modelled by explicit boolean outcome parameters ("oracles"); the control
flow of each translated function follows the Python source line by line.
-/

namespace Relay

/-- Connection-relevant state of RelayController:
`is_connected_flag`, whether `self.serial` is not None (`serial_present`),
whether `self.serial.is_open` (`serial_open`), and the `_connecting` guard. -/
structure State where
  is_connected_flag : Bool
  serial_present : Bool
  serial_open : Bool
  connecting : Bool
deriving DecidableEq

/-- The four-byte ON frame [0xA0, 0x01, 0x01, 0xA2] written by `turn_on`. -/
def onCommand : List Nat := [0xA0, 0x01, 0x01, 0xA2]

/-- The four-byte OFF frame [0xA0, 0x01, 0x00, 0xA1] written by `turn_off`
and by the connection probes. -/
def offCommand : List Nat := [0xA0, 0x01, 0x00, 0xA1]

/-- Observable actions of the relay link: a serial write of a byte frame,
or a sleep of a given number of seconds. -/
inductive Event where
  | write (bytes : List Nat)
  | sleepFor (d : ℚ)
deriving DecidableEq

/-- `is_connected(self)`: returns False when the flag is down or `self.serial`
is None; if the port was closed it clears the flag and returns False. -/
def is_connected (s : State) : Bool × State :=
  if !s.is_connected_flag || !s.serial_present then (false, s)
  else if !s.serial_open then (false, { s with is_connected_flag := false })
  else (true, s)

/-- `turn_on(self)`: checks `is_connected`, then writes the ON frame;
`writeOk` is the outcome of the serial write (False models a raised
exception, which the method catches and converts to False). -/
def turn_on (s : State) (writeOk : Bool) : Bool × State × List Event :=
  let c := is_connected s
  if c.1 then (writeOk, c.2, [Event.write onCommand]) else (false, c.2, [])

/-- `turn_off(self)`: checks `is_connected`, then writes the OFF frame;
`writeOk` is the outcome of the serial write. -/
def turn_off (s : State) (writeOk : Bool) : Bool × State × List Event :=
  let c := is_connected s
  if c.1 then (writeOk, c.2, [Event.write offCommand]) else (false, c.2, [])

/-- `trigger(self, duration)`: if not connected return False; otherwise
`turn_on`, and when that succeeds `time.sleep(duration)` then `turn_off`
(whose return value the source discards) and return True; when `turn_on`
fails return False without attempting `turn_off`. -/
def trigger (s : State) (duration : ℚ) (wOn wOff : Bool) :
    Bool × State × List Event :=
  let c := is_connected s
  if !c.1 then (false, c.2, [])
  else
    let ton := turn_on c.2 wOn
    if ton.1 then
      let toff := turn_off ton.2.1 wOff
      (true, toff.2.1, ton.2.2 ++ [Event.sleepFor duration] ++ toff.2.2)
    else (false, ton.2.1, ton.2.2)

/-- Outcomes of the external serial environment during one `connect()` call:
whether `serial.Serial(...)` succeeds (`openOk`) and whether the validation
write in `_test_connection` succeeds (`validateOk`). -/
structure ConnectEnv where
  openOk : Bool
  validateOk : Bool
deriving DecidableEq

/-- `_test_connection(self)`: False when `self.serial` is None or closed,
otherwise the outcome of writing the OFF frame (the opportunistic echo read
is diagnostics only). -/
def test_connection (s : State) (writeOk : Bool) : Bool :=
  if !s.serial_present || !s.serial_open then false else writeOk

/-- `disconnect(self)`: best-effort off-write and close (errors swallowed),
then the flag is cleared and `self.serial` set to None. `_connecting` is
not touched by `disconnect` itself. -/
def disconnect (s : State) : State :=
  { s with is_connected_flag := false, serial_present := false,
           serial_open := false }

/-- `connect(self)`: short-circuits when `_connecting` is set or when already
connected; otherwise sets `_connecting`, closes a stale open handle, opens
the port, validates with `_test_connection`, and in a `finally` clause
clears `_connecting` on every exit path (success, failed validation,
SerialException, any other exception). -/
def connect (s : State) (env : ConnectEnv) : Bool × State :=
  if s.connecting then (s.is_connected_flag, s)
  else if s.is_connected_flag && s.serial_present && s.serial_open then
    (true, s)
  else
    let s1 := { s with connecting := true }
    let s2 :=
      if s1.serial_present && s1.serial_open then
        { s1 with serial_open := false }
      else s1
    if env.openOk then
      let s3 := { s2 with serial_present := true, serial_open := true }
      if test_connection s3 env.validateOk then
        (true, { s3 with is_connected_flag := true, connecting := false })
      else
        (false, { disconnect s3 with connecting := false })
    else
      (false, { s2 with connecting := false })

/-- `check_connection_health(self)`: reconnects when the flag is down, the
serial object is gone or the port is closed; otherwise writes the OFF-frame
probe (`probeOk` its outcome) and reconnects only when the probe fails.
The third component counts the `connect()` calls made. -/
def check_connection_health (s : State) (probeOk : Bool) (env : ConnectEnv) :
    Bool × State × Nat :=
  if !s.is_connected_flag then ((connect s env).1, (connect s env).2, 1)
  else if !s.serial_present then ((connect s env).1, (connect s env).2, 1)
  else if !s.serial_open then ((connect s env).1, (connect s env).2, 1)
  else if probeOk then (true, s, 0)
  else ((connect s env).1, (connect s env).2, 1)

/-- `maintain_connection(self)`: if `is_connected()` is False, one
`connect()` call; otherwise defer to `check_connection_health`.
The third component counts the `connect()` calls made. -/
def maintain_connection (s : State) (probeOk : Bool) (env : ConnectEnv) :
    Bool × State × Nat :=
  let c := is_connected s
  if !c.1 then ((connect c.2 env).1, (connect c.2 env).2, 1)
  else check_connection_health c.2 probeOk env

end Relay

namespace Detection

/-- Runtime detection configuration of DetectionEngine
(`standard_angle`, `tolerance`, `min_defect_angle`, `max_defect_angle`),
generic in the number type (instantiated at ℚ for decidable reasoning and
at ℝ where the angle arithmetic is transcendental). -/
structure Config (α : Type) where
  standard_angle : α
  tolerance : α
  min_defect_angle : α
  max_defect_angle : α

/-- `is_defect_angle(self, angle)`: deviation from the standard angle must
exceed the tolerance AND the angle must lie inside the inclusive
`[min_defect_angle, max_defect_angle]` band. -/
def is_defect_angle {α : Type} [LinearOrderedField α] (cfg : Config α)
    (angle : α) : Bool :=
  decide (|angle - cfg.standard_angle| > cfg.tolerance) &&
    (decide (cfg.min_defect_angle ≤ angle) && decide (angle ≤ cfg.max_defect_angle))

/-- `np.arctan2 y x`, i.e. the principal argument of the complex number
`x + y*i`, lying in `(-π, π]`. -/
noncomputable def arctan2 (y x : ℝ) : ℝ := Complex.arg ⟨x, y⟩

/-- `calculate_line_angle(self, x1, y1, x2, y2)`:
`angle = np.abs(np.arctan2(y2-y1, x2-x1) * 180 / np.pi)`, then angles
above 90 are reflected to `180 - angle`. -/
noncomputable def calculate_line_angle (x1 y1 x2 y2 : ℤ) : ℝ :=
  let angle := |arctan2 ((y2 : ℝ) - (y1 : ℝ)) ((x2 : ℝ) - (x1 : ℝ)) * 180 / Real.pi|
  if angle > 90 then 180 - angle else angle

/-- A frame (or an ROI of one): a pixel grid with known height and width.
The pixel content is an intensity function; numpy `.size` is the element
count `height * width`. -/
structure Frame where
  height : Nat
  width : Nat
  pix : Nat → Nat → ℚ

/-- numpy `frame.size`. -/
def Frame.size (f : Frame) : Nat := f.height * f.width

/-- Mutable engine state: the detection configuration, the
`max_defect_images` cap and the in-memory `defect_image_count` counter.
The evidence directory itself is modelled separately as a list of the
modification times of the files it holds. -/
structure EngineState where
  cfg : Config ℝ
  max_defect_images : Nat
  defect_image_count : Nat

/-- A Defect Event as built by `create_defect_info`: timestamp, angle,
optional evidence-image path, and the detail message. The f-string
"Board angle X° deviates from standard Y° by Z°" is modelled by the
triple of numbers it interpolates. -/
structure DefectInfo where
  timestamp : String
  angle : ℝ
  image_path : Option String
  details : ℝ × ℝ × ℝ

/-- The data interpolated into the detail message of a Defect Event:
the measured angle, the standard angle, and the absolute deviation. -/
noncomputable def mkDetails (angle standard : ℝ) : ℝ × ℝ × ℝ :=
  (angle, standard, |angle - standard|)

/-- `save_defect_frame(self, frame, timestamp)`: writes
`defect_images/defect_<timestamp with : replaced by ->.png` and returns the
filename, or None when the write raises (`saveOk` is the write outcome). -/
def save_defect_frame (saveOk : Bool) (timestamp : String) : Option String :=
  if saveOk then
    some ("defect_images/defect_" ++ (timestamp.replace ":" "-") ++ ".png")
  else none

/-- `cleanup_old_defect_images(self)`: when the directory holds strictly
more than `max_defect_images` files, sort them by modification time and
remove `files[:-max_defect_images]`, i.e. all but the newest
`max_defect_images` (for `max_defect_images = 0` the Python slice
`files[:-0]` is empty, so nothing is removed). The directory is modelled
as the multiset of its files' modification times. -/
def cleanup_old_defect_images (maxImages : Nat) (files : List Nat) : List Nat :=
  if files.length > maxImages then
    let sorted := files.mergeSort (· ≤ ·)
    if maxImages = 0 then sorted else sorted.drop (sorted.length - maxImages)
  else files

/-- `create_defect_info(self, angle, frame)`: when the counter is below the
cap, save the evidence image and increment the counter; otherwise run
`cleanup_old_defect_images`, save, and reset the counter to 1. In both
cases the defect dict is built with the (possibly None) image path and
returned. `saveOk` is the outcome of the image write, `mtime` the
modification time the new file would get. -/
noncomputable def create_defect_info (eng : EngineState) (files : List Nat)
    (saveOk : Bool) (timestamp : String) (mtime : Nat) (angle : ℝ) :
    Option DefectInfo × EngineState × List Nat :=
  let r :=
    if eng.defect_image_count < eng.max_defect_images then
      (save_defect_frame saveOk timestamp,
       { eng with defect_image_count := eng.defect_image_count + 1 },
       files ++ (if saveOk then [mtime] else []))
    else
      let files1 := cleanup_old_defect_images eng.max_defect_images files
      (save_defect_frame saveOk timestamp,
       { eng with defect_image_count := 1 },
       files1 ++ (if saveOk then [mtime] else []))
  (some { timestamp := timestamp, angle := angle, image_path := r.1,
          details := mkDetails angle eng.cfg.standard_angle },
   r.2.1, r.2.2)

/-- The per-line loop body of `detect_and_draw_lines_with_angles`: skip
lines with out-of-frame endpoints, compute the angle, classify, draw
(red for defects, green otherwise, via the `draw` oracle standing for
`cv2.line`), and for defects run `create_defect_info` and collect the
event. `saveOks`, `timestamps` and `mtimes` give the external outcome of
the k-th evidence write of this call. -/
noncomputable def process_lines
    (draw : Frame → (ℤ × ℤ × ℤ × ℤ) → Bool → Frame)
    (saveOks : Nat → Bool) (timestamps : Nat → String) (mtimes : Nat → Nat) :
    List (ℤ × ℤ × ℤ × ℤ) → Frame → EngineState → List Nat → Nat →
    Frame × List DefectInfo × EngineState × List Nat
  | [], frame, eng, files, _ => (frame, [], eng, files)
  | l :: rest, frame, eng, files, k =>
    if l.1 < 0 ∨ l.2.1 < 0 ∨ l.2.2.1 < 0 ∨ l.2.2.2 < 0 ∨
        l.1 ≥ (frame.width : ℤ) ∨ l.2.1 ≥ (frame.height : ℤ) ∨
        l.2.2.1 ≥ (frame.width : ℤ) ∨ l.2.2.2 ≥ (frame.height : ℤ) then
      process_lines draw saveOks timestamps mtimes rest frame eng files k
    else
      let angle := calculate_line_angle l.1 l.2.1 l.2.2.1 l.2.2.2
      if is_defect_angle eng.cfg angle then
        let frame1 := draw frame l true
        let r := create_defect_info eng files (saveOks k) (timestamps k)
          (mtimes k) angle
        let tail := process_lines draw saveOks timestamps mtimes rest frame1
          r.2.1 r.2.2 (k + 1)
        (tail.1, r.1.toList ++ tail.2.1, tail.2.2)
      else
        let frame1 := draw frame l false
        process_lines draw saveOks timestamps mtimes rest frame1 eng files k

/-- `detect_and_draw_lines_with_angles(self, frame)`: a None frame or a
zero-size frame short-circuits to `(frame, [])`; otherwise the
gray/blur/Canny/HoughLinesP stage (external cv2 calls, summarised by the
`lines` oracle) yields candidate lines, of which at most 20 are processed
by the per-line loop. -/
noncomputable def detect_and_draw_lines_with_angles (eng : EngineState)
    (draw : Frame → (ℤ × ℤ × ℤ × ℤ) → Bool → Frame)
    (saveOks : Nat → Bool) (timestamps : Nat → String) (mtimes : Nat → Nat)
    (lines : Option (List (ℤ × ℤ × ℤ × ℤ))) (files : List Nat)
    (frame : Option Frame) :
    Option Frame × List DefectInfo × EngineState × List Nat :=
  match frame with
  | none => (none, [], eng, files)
  | some f =>
    if f.size = 0 then (some f, [], eng, files)
    else
      match lines with
      | none => (some f, [], eng, files)
      | some ls =>
        if ls.length = 0 then (some f, [], eng, files)
        else
          let ls20 := ls.take (min ls.length 20)
          let r := process_lines draw saveOks timestamps mtimes ls20 f eng files 0
          (some r.1, r.2)

/-- The numpy ROI slice `frame[min y1 y2 : max y1 y2, min x1 x2 : max x1 x2]`
(slice bounds clip at the frame dimensions). -/
def extract_roi (f : Frame) (x1 y1 x2 y2 : Nat) : Frame :=
  { height := min (max y1 y2) f.height - min y1 y2,
    width := min (max x1 x2) f.width - min x1 x2,
    pix := fun i j => f.pix (min y1 y2 + i) (min x1 x2 + j) }

/-- Writing the processed ROI back into the frame:
`frame[ylo:yhi, xlo:xhi] = processed_roi`. -/
def write_back (f roi2 : Frame) (x1 y1 x2 y2 : Nat) : Frame :=
  { f with pix := fun i j =>
      if min y1 y2 ≤ i ∧ i < min y1 y2 + roi2.height ∧
          min x1 x2 ≤ j ∧ j < min x1 x2 + roi2.width then
        roi2.pix (i - min y1 y2) (j - min x1 x2)
      else f.pix i j }

/-- `run_detection(self, frame)` from main.py: converts the widget ROI
corners to frame coordinates (the conversion clamps into the frame, or
yields None; its results are the `frame_start`/`frame_end` inputs),
returns early when either is None, when the ROI is narrower or shorter
than 10 pixels, or when the ROI slice is empty; otherwise runs the
detection engine on the ROI and writes the annotated ROI back. Returns
the resulting frame, the defect events handed to `process_defects`, and
the updated engine and evidence-store state. -/
noncomputable def run_detection (eng : EngineState)
    (draw : Frame → (ℤ × ℤ × ℤ × ℤ) → Bool → Frame)
    (saveOks : Nat → Bool) (timestamps : Nat → String) (mtimes : Nat → Nat)
    (lines : Option (List (ℤ × ℤ × ℤ × ℤ))) (files : List Nat)
    (frame : Frame) (frame_start frame_end : Option (Nat × Nat)) :
    Frame × List DefectInfo × EngineState × List Nat :=
  match frame_start, frame_end with
  | none, _ => (frame, [], eng, files)
  | _, none => (frame, [], eng, files)
  | some (x1, y1), some (x2, y2) =>
    if max x1 x2 - min x1 x2 < 10 ∨ max y1 y2 - min y1 y2 < 10 then
      (frame, [], eng, files)
    else
      let roi := extract_roi frame x1 y1 x2 y2
      if roi.size = 0 then (frame, [], eng, files)
      else
        let d := detect_and_draw_lines_with_angles eng draw saveOks timestamps
          mtimes lines files (some roi)
        (write_back frame (d.1.getD roi) x1 y1 x2 y2, d.2)

end Detection

namespace Coordinator

/-- The rate-limiting counters of the Pipeline Coordinator (main.py):
`last_defect_time` and `defect_count_this_second`. -/
structure RateState where
  last_defect_time : ℚ
  defect_count_this_second : Nat
deriving DecidableEq

/-- `process_defects(self, defects)`: when less than one second has passed
since `last_defect_time` and the counter has reached
`max_defects_per_second`, the whole batch is dropped; otherwise (after
resetting the counter and timestamp when a second has passed) every
defect of the batch is processed — logged, recorded and forwarded to the
relay — incrementing the counter once per defect. Returns the number of
accepted events and the new counter state; `batch` is the size of the
defect list of this call and `now` the value of `time.time()`. -/
def process_defects (cap : Nat) (s : RateState) (now : ℚ) (batch : Nat) :
    Nat × RateState :=
  if now - s.last_defect_time < 1 then
    if s.defect_count_this_second ≥ cap then (0, s)
    else
      (batch, { s with defect_count_this_second :=
                  s.defect_count_this_second + batch })
  else
    (batch, { last_defect_time := now, defect_count_this_second := batch })

/-- `n` successive `process_defects` calls of one defect each, all at the
same wall-clock time `now` (events delivered one per detection call).
Returns the total number of accepted events and the final state. -/
def process_seq (cap : Nat) (now : ℚ) : RateState → Nat → Nat × RateState
  | s, 0 => (0, s)
  | s, n + 1 =>
    let r := process_defects cap s now 1
    let rest := process_seq cap now r.2 n
    (r.1 + rest.1, rest.2)

end Coordinator

namespace Video

/-- Notifications emitted by VideoThread: a published frame
(`frame_ready`), the "Connection lost. Attempting to reconnect..." error,
the "Reconnected successfully" message, and the terminal
"Failed to reconnect" error. -/
inductive Notice where
  | frameReady
  | connectionLost
  | reconnectedOk
  | reconnectFailed
deriving DecidableEq

/-- `self.max_consecutive_failures` of VideoThread. -/
def max_consecutive_failures : Nat := 3

/-- The failure-handling skeleton of `VideoThread.run`: each loop
iteration consumes one read outcome from `reads` (True = a frame arrived
within the timeout); a successful read resets the consecutive-failure
counter and publishes the frame; a failed read increments it, and once it
reaches `max_consecutive_failures` the loop reports the lost connection
and runs `reconnect()`, whose outcome is the next element of `recs`:
on success ("Reconnected successfully") the loop continues with the
counter untouched, on failure ("Failed to reconnect") the loop breaks.
Frame-rate pacing and the small CPU sleeps do not affect which
notifications are emitted and are not modelled. An exhausted `reads` or
`recs` oracle ends the analysed trace. -/
def runLoop : List Bool → List Bool → Nat → List Notice
  | [], _, _ => []
  | r :: reads, recs, fails =>
    if r then Notice.frameReady :: runLoop reads recs 0
    else
      if fails + 1 ≥ max_consecutive_failures then
        match recs with
        | [] => [Notice.connectionLost]
        | rc :: recs2 =>
          if rc then
            Notice.connectionLost :: Notice.reconnectedOk ::
              runLoop reads recs2 (fails + 1)
          else [Notice.connectionLost, Notice.reconnectFailed]
      else runLoop reads recs (fails + 1)

end Video

/-! Theorems about the embedded program. -/

/-- C1, counterexample: in a fully connected state, with a succeeding
on-write and a failing off-write, `trigger` still returns True — so the
claim that the call returns true only if both writes succeed is false
(the source discards the return value of `turn_off`). -/
theorem C1_trigger_counterexample :
    (Relay.trigger ⟨true, true, true, false⟩ (1/2) true false).1 = true := by
  decide

/-- C1 (amended): for a connected controller, `trigger` first issues the
on-command; if the on-write fails, no off-write is attempted and the call
returns False; if the on-write succeeds, it sleeps for `duration` seconds,
then issues the off-command, and returns True regardless of whether the
off-write succeeds. -/
theorem C1_trigger_amended (s : Relay.State) (d : ℚ) (wOn wOff : Bool)
    (hconn : (Relay.is_connected s).1 = true) :
    (wOn = false →
      Relay.trigger s d wOn wOff =
        (false, s, [Relay.Event.write Relay.onCommand])) ∧
    (wOn = true →
      Relay.trigger s d wOn wOff =
        (true, s,
         [Relay.Event.write Relay.onCommand, Relay.Event.sleepFor d,
          Relay.Event.write Relay.offCommand])) := by
  rcases s with ⟨f, p, o, cn⟩
  have hf : f = true ∧ p = true ∧ o = true := by
    revert hconn; cases f <;> cases p <;> cases o <;>
      simp [Relay.is_connected]
  obtain ⟨rfl, rfl, rfl⟩ := hf
  constructor
  · rintro rfl
    simp [Relay.trigger, Relay.turn_on, Relay.is_connected]
  · rintro rfl
    simp [Relay.trigger, Relay.turn_on, Relay.turn_off, Relay.is_connected]

/-- C1, witness: the amended theorem evaluated in a connected state with
both writes succeeding. -/
theorem C1_trigger_amended_witness :
    (Relay.is_connected ⟨true, true, true, false⟩).1 = true ∧
    Relay.trigger ⟨true, true, true, false⟩ (1/2) true true =
      (true, ⟨true, true, true, false⟩,
       [Relay.Event.write Relay.onCommand, Relay.Event.sleepFor (1/2),
        Relay.Event.write Relay.offCommand]) :=
  ⟨by decide,
   (C1_trigger_amended ⟨true, true, true, false⟩ (1/2) true true
     (by decide)).2 rfl⟩

/-- C2, counterexample: with cap 3 (low profile), a single
`process_defects` call whose batch holds 6 = 2×cap defects, arriving
within one second of the last reset with the counter at 0, accepts all
6 events — more than `max_defects_per_second`. -/
theorem C2_rate_limit_counterexample :
    Coordinator.process_defects 3 ⟨0, 0⟩ (1/2) 6 = (6, ⟨0, 6⟩) ∧
    ¬ (6 ≤ 3) := by
  refine ⟨?_, by norm_num⟩
  norm_num [Coordinator.process_defects]

/-- Accepted-event count of `process_seq` under the rate limiter: while
within the same wall-clock second, `n` one-defect calls accept exactly
`min n (cap - count)` events. -/
theorem process_seq_accepted_of_lt (cap : Nat) (now : ℚ) :
    ∀ (n : Nat) (s : Coordinator.RateState),
      now - s.last_defect_time < 1 →
      (Coordinator.process_seq cap now s n).1 =
        min n (cap - s.defect_count_this_second) := by
  intro n
  induction n with
  | zero => intro s _; simp [Coordinator.process_seq]
  | succ n ih =>
    intro s h
    by_cases hc : s.defect_count_this_second ≥ cap
    · have h1 : Coordinator.process_defects cap s now 1 = (0, s) := by
        simp [Coordinator.process_defects, h, hc]
      simp only [Coordinator.process_seq, h1]
      rw [ih s h]
      omega
    · have h1 : Coordinator.process_defects cap s now 1 =
          (1, { s with defect_count_this_second :=
                  s.defect_count_this_second + 1 }) := by
        simp [Coordinator.process_defects, h, hc]
      simp only [Coordinator.process_seq, h1]
      rw [ih { s with defect_count_this_second :=
            s.defect_count_this_second + 1 } h]
      simp only
      omega

/-- C2 (amended): the cap is enforced per call, not per event — a call
arriving within one second of the last reset while the counter has
reached `max_defects_per_second` is dropped whole, but an admitted call
is processed whole; in particular 2×cap defect events delivered one per
call within one wall-clock second yield exactly cap accepted events,
while a single call carrying a 2×cap batch is accepted whole (the
counterexample). -/
theorem C2_rate_limit_amended (cap : Nat) (s : Coordinator.RateState)
    (now : ℚ) (batch n : Nat) (hlt : now - s.last_defect_time < 1) :
    (s.defect_count_this_second ≥ cap →
      Coordinator.process_defects cap s now batch = (0, s)) ∧
    (s.defect_count_this_second = 0 →
      (Coordinator.process_seq cap now s n).1 = min n cap) ∧
    (s.defect_count_this_second = 0 →
      (Coordinator.process_seq cap now s (2 * cap)).1 = cap) := by
  refine ⟨?_, ?_, ?_⟩
  · intro hc
    simp [Coordinator.process_defects, hlt, hc]
  · intro h0
    rw [process_seq_accepted_of_lt cap now n s hlt, h0]
    omega
  · intro h0
    rw [process_seq_accepted_of_lt cap now (2 * cap) s hlt, h0]
    omega

/-- C2, witness: with cap 3, a one-defect call at a full counter is
dropped, and 6 = 2×3 one-defect calls within one second accept exactly
3 events. -/
theorem C2_rate_limit_amended_witness :
    Coordinator.process_defects 3 ⟨0, 3⟩ (1/2) 1 = (0, ⟨0, 3⟩) ∧
    (Coordinator.process_seq 3 (1/2) ⟨0, 0⟩ (2 * 3)).1 = 3 :=
  ⟨(C2_rate_limit_amended 3 ⟨0, 3⟩ (1/2) 1 0 (by norm_num)).1 (by decide),
   (C2_rate_limit_amended 3 ⟨0, 0⟩ (1/2) 0 0 (by norm_num)).2.2 rfl⟩

/-- C3, counterexample: with `max_defect_images = 1`, a directory already
holding one file and the counter at the cap, a completed write evicts
nothing (`cleanup_old_defect_images` only trims when the count strictly
exceeds the cap) and leaves 2 files — more than the cap, with the oldest
file still present. -/
theorem C3_evidence_store_counterexample :
    ((Detection.create_defect_info ⟨⟨90, 5, 80, 100⟩, 1, 1⟩ [0] true "t" 1
        0).2.2).length = 2 ∧
    (0 : Nat) ∈
      (Detection.create_defect_info ⟨⟨90, 5, 80, 100⟩, 1, 1⟩ [0] true "t" 1
        0).2.2 := by
  constructor <;>
    simp [Detection.create_defect_info, Detection.cleanup_old_defect_images,
      Detection.save_defect_frame]

/-- C3 (amended): after a completed evidence write the directory holds at
most `max_defect_images + defect_image_count ≤ 2 × max_defect_images`
files (the counter staying at most the cap), and a write at a full
counter first runs `cleanup_old_defect_images`, which keeps only the
newest `max_defect_images` files when the directory holds strictly more
than the cap — evicting the oldest by modification time — and nothing
otherwise. -/
theorem C3_evidence_store_amended (eng : Detection.EngineState)
    (files : List Nat) (ts : String) (mt : Nat) (angle : ℝ)
    (hmax : 1 ≤ eng.max_defect_images)
    (hcount : eng.defect_image_count ≤ eng.max_defect_images)
    (hfiles : files.length ≤ eng.max_defect_images + eng.defect_image_count) :
    let r := Detection.create_defect_info eng files true ts mt angle
    r.2.2.length ≤ eng.max_defect_images + r.2.1.defect_image_count ∧
    r.2.1.defect_image_count ≤ eng.max_defect_images ∧
    r.2.2.length ≤ 2 * eng.max_defect_images ∧
    (eng.max_defect_images ≤ eng.defect_image_count →
      r.2.2 = Detection.cleanup_old_defect_images eng.max_defect_images files
        ++ [mt] ∧
      (Detection.cleanup_old_defect_images eng.max_defect_images
        files).length = min files.length eng.max_defect_images) := by
  have hclean : (Detection.cleanup_old_defect_images eng.max_defect_images
      files).length = min files.length eng.max_defect_images := by
    unfold Detection.cleanup_old_defect_images
    split
    · rw [if_neg (by omega)]
      simp [List.length_mergeSort]
      omega
    · omega
  rcases Nat.lt_or_ge eng.defect_image_count eng.max_defect_images with h | h
  · simp only [Detection.create_defect_info, if_pos h, if_pos rfl]
    refine ⟨?_, by simpa using h, ?_, ?_⟩
    · simp; omega
    · simp; omega
    · intro hge; omega
  · simp only [Detection.create_defect_info, if_neg (Nat.not_lt.mpr h),
      if_pos rfl]
    refine ⟨?_, by simpa using hmax, ?_, ?_⟩
    · simp only [List.length_append, List.length_cons, List.length_nil,
        if_true, hclean]
      omega
    · simp only [List.length_append, List.length_cons, List.length_nil,
        if_true, hclean]
      omega
    · intro _; exact ⟨by simp, hclean⟩

/-- C3, witness: cap 2, counter at the cap, directory holding 3 files;
the write trims to the 2 newest files then adds the new one, for 3 ≤ 2×2
files. -/
theorem C3_evidence_store_amended_witness :
    ((Detection.create_defect_info ⟨⟨90, 5, 80, 100⟩, 2, 2⟩ [5, 3, 4] true
        "t" 9 0).2.2).length ≤ 2 * 2 :=
  (C3_evidence_store_amended ⟨⟨90, 5, 80, 100⟩, 2, 2⟩ [5, 3, 4] "t" 9 0
    (by decide) (by decide) (by decide)).2.2.1

/-- C4: for every angle in [0, 90] and every detection configuration,
`is_defect_angle` classifies the angle as a defect iff the deviation from
the standard angle strictly exceeds the tolerance and the angle lies in
the inclusive `[min_defect_angle, max_defect_angle]` band; at a deviation
of exactly the tolerance the angle is not a defect. -/
theorem C4_is_defect_angle (cfg : Detection.Config ℚ) (angle : ℚ)
    (h0 : 0 ≤ angle) (h90 : angle ≤ 90) :
    (Detection.is_defect_angle cfg angle = true ↔
      (|angle - cfg.standard_angle| > cfg.tolerance ∧
       cfg.min_defect_angle ≤ angle ∧ angle ≤ cfg.max_defect_angle)) ∧
    (|angle - cfg.standard_angle| = cfg.tolerance →
      Detection.is_defect_angle cfg angle = false) := by
  constructor
  · simp [Detection.is_defect_angle]
  · intro he
    simp [Detection.is_defect_angle, he]

/-- C4, witness: with the default configuration (standard 90, tolerance
5, band [80, 100]), the angle 84 deviates by 6 > 5, lies in the band, and
is classified as a defect. -/
theorem C4_is_defect_angle_witness :
    Detection.is_defect_angle (⟨90, 5, 80, 100⟩ : Detection.Config ℚ) 84 =
      true :=
  (C4_is_defect_angle ⟨90, 5, 80, 100⟩ 84 (by norm_num)
    (by norm_num)).1.mpr ⟨by norm_num, by norm_num, by norm_num⟩

/-- C5: `calculate_line_angle` computes
`θ = |atan2(y2-y1, x2-x1) * 180 / π|`, returns `180 - θ` when `θ > 90`
and `θ` otherwise, and the returned angle always lies in [0, 90]. -/
theorem C5_calculate_line_angle (x1 y1 x2 y2 : ℤ) :
    Detection.calculate_line_angle x1 y1 x2 y2 =
      (if |Detection.arctan2 ((y2 : ℝ) - (y1 : ℝ)) ((x2 : ℝ) - (x1 : ℝ)) *
            180 / Real.pi| > 90
       then 180 - |Detection.arctan2 ((y2 : ℝ) - (y1 : ℝ))
            ((x2 : ℝ) - (x1 : ℝ)) * 180 / Real.pi|
       else |Detection.arctan2 ((y2 : ℝ) - (y1 : ℝ))
            ((x2 : ℝ) - (x1 : ℝ)) * 180 / Real.pi|) ∧
    0 ≤ Detection.calculate_line_angle x1 y1 x2 y2 ∧
    Detection.calculate_line_angle x1 y1 x2 y2 ≤ 90 := by
  have hpi : 0 < Real.pi := Real.pi_pos
  have habs : |Detection.arctan2 ((y2 : ℝ) - (y1 : ℝ))
      ((x2 : ℝ) - (x1 : ℝ))| ≤ Real.pi := Complex.abs_arg_le_pi _
  have hnn : 0 ≤ |Detection.arctan2 ((y2 : ℝ) - (y1 : ℝ))
      ((x2 : ℝ) - (x1 : ℝ)) * 180 / Real.pi| := abs_nonneg _
  have hle : |Detection.arctan2 ((y2 : ℝ) - (y1 : ℝ))
      ((x2 : ℝ) - (x1 : ℝ)) * 180 / Real.pi| ≤ 180 := by
    rw [abs_div, abs_mul, abs_of_pos hpi,
      abs_of_nonneg (by norm_num : (0 : ℝ) ≤ 180), div_le_iff hpi]
    nlinarith [habs, hpi]
  refine ⟨rfl, ?_, ?_⟩ <;>
    · simp only [Detection.calculate_line_angle]
      split <;> linarith

/-- C6: `maintain_connection` called while disconnected performs exactly
one `connect()` call and returns its result; called while connected with
a succeeding off-command probe, it performs no `connect()` call, returns
True and leaves the state unchanged. -/
theorem C6_maintain_connection (s : Relay.State) (env : Relay.ConnectEnv)
    (probeOk : Bool) :
    ((Relay.is_connected s).1 = false →
      Relay.maintain_connection s probeOk env =
        ((Relay.connect (Relay.is_connected s).2 env).1,
         (Relay.connect (Relay.is_connected s).2 env).2, 1)) ∧
    ((Relay.is_connected s).1 = true → probeOk = true →
      Relay.maintain_connection s probeOk env = (true, s, 0)) := by
  constructor
  · intro h
    simp [Relay.maintain_connection, h]
  · intro h hp
    rcases s with ⟨f, p, o, cn⟩
    have hf : f = true ∧ p = true ∧ o = true := by
      revert h; cases f <;> cases p <;> cases o <;>
        simp [Relay.is_connected]
    obtain ⟨rfl, rfl, rfl⟩ := hf
    subst hp
    simp [Relay.maintain_connection, Relay.is_connected,
      Relay.check_connection_health]

/-- C6, witness: the connected, probe-healthy case performs no connect
call; the disconnected case performs exactly one. -/
theorem C6_maintain_connection_witness :
    Relay.maintain_connection ⟨true, true, true, false⟩ true ⟨true, true⟩ =
      (true, ⟨true, true, true, false⟩, 0) ∧
    Relay.maintain_connection ⟨false, false, false, false⟩ true
        ⟨true, true⟩ =
      ((Relay.connect (Relay.is_connected
          ⟨false, false, false, false⟩).2 ⟨true, true⟩).1,
       (Relay.connect (Relay.is_connected
          ⟨false, false, false, false⟩).2 ⟨true, true⟩).2, 1) :=
  ⟨(C6_maintain_connection ⟨true, true, true, false⟩ ⟨true, true⟩
      true).2 (by decide) rfl,
   (C6_maintain_connection ⟨false, false, false, false⟩ ⟨true, true⟩
      true).1 (by decide)⟩

/-- C7: in the acquisition loop, one or two consecutive failed reads emit
nothing and trigger no reconnect; exactly three consecutive failed reads
emit the connection-lost notice and enter reconnect: on reconnect success
the loop announces it and resumes (a subsequent successful read publishes
a frame and resets the failure counter), and on reconnect failure the
loop emits the terminal failed-to-reconnect notice and stops, consuming
no second reconnect attempt. -/
theorem C7_acquisition_loop (reads recs : List Bool) (rc : Bool) (f : Nat) :
    (Video.runLoop [false] recs 0 = [] ∧
     Video.runLoop [false, false] recs 0 = []) ∧
    (Video.runLoop (false :: false :: false :: reads) (rc :: recs) 0 =
      if rc then
        Video.Notice.connectionLost :: Video.Notice.reconnectedOk ::
          Video.runLoop reads recs 3
      else [Video.Notice.connectionLost, Video.Notice.reconnectFailed]) ∧
    (Video.runLoop (true :: reads) recs f =
      Video.Notice.frameReady :: Video.runLoop reads recs 0) := by
  refine ⟨⟨?_, ?_⟩, ?_, ?_⟩ <;>
    cases rc <;>
      simp [Video.runLoop, Video.max_consecutive_failures]

/-- C8: a frame whose ROI is narrower or shorter than 10 pixels is
skipped by `run_detection` — no defect events, the frame, engine state
and evidence store unchanged; and a None frame or a zero-size frame given
to `detect_and_draw_lines_with_angles` yields no lines and no defects. -/
theorem C8_small_roi_skips (eng : Detection.EngineState)
    (draw : Detection.Frame → (ℤ × ℤ × ℤ × ℤ) → Bool → Detection.Frame)
    (saveOks : Nat → Bool) (timestamps : Nat → String) (mtimes : Nat → Nat)
    (lines : Option (List (ℤ × ℤ × ℤ × ℤ))) (files : List Nat)
    (frame : Detection.Frame) (x1 y1 x2 y2 : Nat)
    (hsmall : max x1 x2 - min x1 x2 < 10 ∨ max y1 y2 - min y1 y2 < 10) :
    Detection.run_detection eng draw saveOks timestamps mtimes lines files
        frame (some (x1, y1)) (some (x2, y2)) = (frame, [], eng, files) ∧
    Detection.detect_and_draw_lines_with_angles eng draw saveOks timestamps
        mtimes lines files none = (none, [], eng, files) ∧
    (∀ g : Detection.Frame, g.size = 0 →
      Detection.detect_and_draw_lines_with_angles eng draw saveOks
        timestamps mtimes lines files (some g) = (some g, [], eng, files)) := by
  refine ⟨?_, rfl, ?_⟩
  · simp only [Detection.run_detection]
    rw [if_pos hsmall]
  · intro g hg
    simp [Detection.detect_and_draw_lines_with_angles, hg]

/-- C8, witness: a 20×20 frame with an ROI of width 5 < 10 is returned
unmodified with no defect events. -/
theorem C8_small_roi_skips_witness :
    Detection.run_detection ⟨⟨90, 5, 80, 100⟩, 100, 0⟩ (fun g _ _ => g)
        (fun _ => true) (fun _ => "t") (fun _ => 0) none []
        ⟨20, 20, fun _ _ => 0⟩ (some (0, 0)) (some (5, 15)) =
      (⟨20, 20, fun _ _ => 0⟩, [], ⟨⟨90, 5, 80, 100⟩, 100, 0⟩, []) :=
  (C8_small_roi_skips ⟨⟨90, 5, 80, 100⟩, 100, 0⟩ (fun g _ _ => g)
    (fun _ => true) (fun _ => "t") (fun _ => 0) none []
    ⟨20, 20, fun _ _ => 0⟩ 0 0 5 15 (by decide)).1

/-- C9: on every return path of `connect` — already-connected
short-circuit, successful connection, failed validation, failed open
(SerialException or any other exception) — the `_connecting` flag is
False after the call returns, provided no other attempt held it at entry;
a failed or aborted attempt never permanently blocks later `connect`
calls. -/
theorem C9_connect_clears_connecting (s : Relay.State)
    (env : Relay.ConnectEnv) (h : s.connecting = false) :
    ((Relay.connect s env).2).connecting = false := by
  rcases s with ⟨f, p, o, cn⟩
  have hcn : cn = false := h
  subst hcn
  rcases env with ⟨a, b⟩
  cases f <;> cases p <;> cases o <;> cases a <;> cases b <;> rfl

/-- C9, witness: the failed-validation path (open succeeds, the
validation write fails, `disconnect` runs) leaves `_connecting` False. -/
theorem C9_connect_clears_connecting_witness :
    ((Relay.connect ⟨false, false, false, false⟩ ⟨true, false⟩).2).connecting
      = false :=
  C9_connect_clears_connecting ⟨false, false, false, false⟩ ⟨true, false⟩
    rfl

/-- C10: when the evidence-image write fails (`save_defect_frame` returns
None), `create_defect_info` still returns a defect event whose
`image_path` is None and whose timestamp, angle and details fields are
populated as usual — a persistence failure does not suppress the event. -/
theorem C10_save_failure_still_emits (eng : Detection.EngineState)
    (files : List Nat) (ts : String) (mt : Nat) (angle : ℝ) :
    (Detection.create_defect_info eng files false ts mt angle).1 =
      some { timestamp := ts, angle := angle, image_path := none,
             details := Detection.mkDetails angle eng.cfg.standard_angle } ∧
    Detection.save_defect_frame false ts = none := by
  refine ⟨?_, rfl⟩
  rcases Nat.lt_or_ge eng.defect_image_count eng.max_defect_images with h | h
  · simp [Detection.create_defect_info, Detection.save_defect_frame, h]
  · simp [Detection.create_defect_info, Detection.save_defect_frame,
      Nat.not_lt.mpr h]
